import Mathlib

/-!
Shallow embedding of `main.py`, a batch tool that strips an audio track from
video files by shelling out to ffmpeg, and optionally inspects stream
metadata with ffprobe.

Modelling conventions:
* `pathlib.Path` is modelled in POSIX flavour as `PyPath`: an absoluteness
  flag plus the list of components (no drive letters).  `Path.__truediv__`,
  `Path.name`, `Path.suffix`, `Path.parts` and `str()` are reproduced from
  pathlib's documented semantics.
* External effects are explicit parameters: `subprocess.run` becomes a
  function `List String → CmdResult`; the filesystem becomes a function
  `PyPath → Option (List String)` giving a directory's entry names (or
  `none` when the directory does not exist); `json.loads` for the debugging
  pipeline becomes a function `String → Except PyError α`.
* Python exceptions become the `PyError` inductive; a raising function
  returns `Except PyError _`.  Exception payloads (`.args`) are modelled by
  `pyErrorArgs`.
* Only library string functions with structural definitions are used, so
  everything evaluates by `decide`/`rfl`.
-/

/-- Python exceptions raised by the script: `FileNotFoundError` (with its
message), `json.JSONDecodeError`, `KeyError` (with the missing key), and the
bare `RuntimeError` raised on a failed ffmpeg run. -/
inductive PyError where
  | fileNotFound (msg : String)
  | jsonDecodeError
  | keyError (key : String)
  | runtimeError
  deriving DecidableEq, Repr

/-- The `.args` tuple of the corresponding Python exception.  The decode
error's human-readable message is elided; the bare `RuntimeError` raised at
main.py line 75 has empty `.args`. -/
def pyErrorArgs : PyError → List String
  | PyError.fileNotFound msg => [msg]
  | PyError.jsonDecodeError => []
  | PyError.keyError k => [k]
  | PyError.runtimeError => []

/-- A `pathlib.Path` (POSIX flavour): absoluteness flag plus components. -/
structure PyPath where
  absolute : Bool
  parts : List String
  deriving DecidableEq, Repr

/-- Join a list of path components with `/` separators. -/
def joinSlash : List String → String
  | [] => ""
  | [p] => p
  | p :: q :: ps => p ++ "/" ++ joinSlash (q :: ps)

/-- `str()` of a path: leading `/` when absolute, components joined by `/`;
the empty relative path prints as `.` like `pathlib.Path('')`. -/
def pyStr (p : PyPath) : String :=
  match p.parts with
  | [] => if p.absolute then "/" else "."
  | _ => (if p.absolute then "/" else "") ++ joinSlash p.parts

/-- Split raw characters at `/` boundaries, accumulating the current
segment in reverse. -/
def splitSlashAux : List Char → List Char → List String
  | [], acc => [String.mk acc.reverse]
  | c :: cs, acc =>
    if c = '/' then String.mk acc.reverse :: splitSlashAux cs []
    else splitSlashAux cs (c :: acc)

/-- Whether a raw path string starts with `/`. -/
def pyIsAbsStr (s : String) : Bool :=
  match s.data with
  | c :: _ => c == '/'
  | [] => false

/-- Parse a path string the way `pathlib.Path(s)` does on POSIX: leading `/`
makes it absolute; empty segments and `.` segments are dropped (while `..`
is kept). -/
def pyPathOfString (s : String) : PyPath :=
  PyPath.mk (pyIsAbsStr s)
    ((splitSlashAux s.data []).filter (fun seg => !(seg == "") && !(seg == ".")))

/-- `pathlib`'s `/` operator: an absolute right operand replaces the left
operand entirely, otherwise the component lists are concatenated. -/
def pyDiv (p q : PyPath) : PyPath :=
  if q.absolute then q else PyPath.mk p.absolute (p.parts ++ q.parts)

/-- `Path.name`: the final component, `''` when there is none. -/
def pyName (p : PyPath) : String := (List.getLast? p.parts).getD ""

/-- `Path.parts` as Python exposes it: the root `'/'` is itself the first
element of the tuple for an absolute path. -/
def pyParts (p : PyPath) : List String :=
  (if p.absolute then ["/"] else []) ++ p.parts

/-- `path.parts[-1]` (the last element of the parts tuple; `Path('')` would
raise `IndexError` in Python, modelled as `""` — never reached for real
file paths). -/
def partsLast (p : PyPath) : String := (List.getLast? (pyParts p)).getD ""

/-- Index of the last `'.'` in a character list, if any. -/
def rfindDot : List Char → Option Nat
  | [] => none
  | c :: cs =>
    match rfindDot cs with
    | some i => some (i + 1)
    | none => if c = '.' then some 0 else none

/-- `Path.suffix` computed from the file name, following pathlib: the text
from the last dot, provided that dot is neither leading nor trailing. -/
def suffixOfName (name : String) : String :=
  match rfindDot name.data with
  | none => ""
  | some i =>
    if 0 < i ∧ i + 1 < name.data.length then String.mk (name.data.drop i) else ""

/-- `Path.suffix`. -/
def pySuffix (p : PyPath) : String := suffixOfName (pyName p)

/-- `str.lower()` restricted to ASCII case mapping, matching Python on the
ASCII strings the script manipulates. -/
def pyLowerStr (s : String) : String := String.mk (s.data.map Char.toLower)

/-- Python's `repr` of a list of (quote-free ASCII) strings, as `print`
renders the command list at main.py line 71. -/
def pyReprList (l : List String) : String :=
  "[" ++ joinComma (l.map (fun s => "'" ++ s ++ "'")) ++ "]"
where
  joinComma : List String → String
    | [] => ""
    | [x] => x
    | x :: y :: xs => x ++ ", " ++ joinComma (y :: xs)

/-- Result of `subprocess.run(..., capture_output=True, text=True)`. -/
structure CmdResult where
  returncode : Int
  stdout : String
  stderr : String
  deriving DecidableEq, Repr

/-- A parsed JSON configuration object: key/value pairs (the script's four
configuration values are strings).  Lookup takes the first match; a parsed
Python dict has unique keys. -/
def JsonObj : Type := List (String × String)

/-- Python dict subscription `d[k]`: the value, or `KeyError` when absent. -/
def dictGet (d : JsonObj) (k : String) : Except PyError String :=
  match d.find? (fun kv => kv.fst == k) with
  | some kv => Except.ok kv.snd
  | none => Except.error (PyError.keyError k)

/-- Whether the parsed object has key `k`. -/
def hasKey (d : JsonObj) (k : String) : Bool :=
  d.any (fun kv => kv.fst == k)

/-- `load_json_from_file` (main.py lines 19–29): raises `FileNotFoundError`
with the quoted path when the file is missing, propagates the JSON decode
error when the content does not parse, and otherwise returns the parsed
document (modelled by the `parsed` parameter). -/
def load_json_from_file (file_path : PyPath) (fileExists : Bool)
    (parsed : Option JsonObj) : Except PyError JsonObj :=
  if fileExists then
    match parsed with
    | none => Except.error PyError.jsonDecodeError
    | some d => Except.ok d
  else
    Except.error (PyError.fileNotFound
      ("File '" ++ pyStr file_path ++ "' does not exist."))

/-- The four configuration values read at main.py lines 34–37. -/
structure Config where
  ffmpeg_dir : String
  source_dir : String
  target_dir : String
  file_extension_filter : String
  deriving DecidableEq, Repr

/-- Module-level configuration loading (main.py lines 32–37): load the JSON
document, then subscript the four required keys in source order; a missing
key raises `KeyError` at the first absent subscript. -/
def loadConfig (config_path : PyPath) (fileExists : Bool)
    (parsed : Option JsonObj) : Except PyError Config :=
  match load_json_from_file config_path fileExists parsed with
  | Except.error e => Except.error e
  | Except.ok c =>
    match dictGet c "ffmpeg_dir" with
    | Except.error e => Except.error e
    | Except.ok ffmpeg_dir =>
      match dictGet c "source_dir" with
      | Except.error e => Except.error e
      | Except.ok source_dir =>
        match dictGet c "target_dir" with
        | Except.error e => Except.error e
        | Except.ok target_dir =>
          match dictGet c "file_extension_filter" with
          | Except.error e => Except.error e
          | Except.ok ext =>
            Except.ok (Config.mk ffmpeg_dir source_dir target_dir ext)

/-- `FFMPEG_INSPECT_COMMAND_HEAD` (main.py line 45). -/
def FFMPEG_INSPECT_COMMAND_HEAD : List String :=
  ["ffprobe", "-v", "error", "-show_entries",
   "stream=index,codec_type:stream_tags=language", "-of", "json"]

/-- `FFMPEG_REMOVE_HUN_AUDIO_COMMAND_P1` (main.py line 46). -/
def FFMPEG_REMOVE_HUN_AUDIO_COMMAND_P1 : List String := ["ffmpeg", "-i"]

/-- `FFMPEG_REMOVE_HUN_AUDIO_COMMAND_P2` (main.py lines 47–54). -/
def FFMPEG_REMOVE_HUN_AUDIO_COMMAND_P2 : List String :=
  ["-map", "0:v", "-map", "0:s", "-map", "-0:a:0", "-map", "0:a:1",
   "-c:v", "copy", "-c:a", "copy", "-c:s", "copy"]

/-- `get_video_files_from_path` (main.py lines 57–58).  `dir_path.iterdir()`
yields `dir_path / name` for each entry name (or raises `FileNotFoundError`
when the directory does not exist, modelled by `fs dir_path = none`); the
comprehension keeps entries whose `suffix.lower()` equals `'.' + extension`
and joins each kept entry onto `dir_path` once more with `/`.  Entry names
are plain file names (non-empty, no separators). -/
def get_video_files_from_path (fs : PyPath → Option (List String))
    (dir_path : PyPath) (extension : String) : Except PyError (List PyPath) :=
  match fs dir_path with
  | none => Except.error (PyError.fileNotFound (pyStr dir_path))
  | some entries =>
    Except.ok
      (((entries.map (fun n => pyDiv dir_path (PyPath.mk false [n]))).filter
          (fun f => pyLowerStr (pySuffix f) == "." ++ extension)).map
        (fun f => pyDiv dir_path f))

/-- The removal command built at main.py lines 68–69:
`P1 + [str(video_file)] + P2 + [str(target_dir / video_file.parts[-1])]`. -/
def buildRemoveCommand (target_dir video_file : PyPath) : List String :=
  FFMPEG_REMOVE_HUN_AUDIO_COMMAND_P1 ++ [pyStr video_file] ++
    FFMPEG_REMOVE_HUN_AUDIO_COMMAND_P2 ++
    [pyStr (pyDiv target_dir (pyPathOfString (partsLast video_file)))]

/-- Observable behaviour of one call of `remove_hun_audio_from_files`: the
commands passed to `subprocess.run` in order, the `print` log lines in
order, and normal return versus a raised exception. -/
structure BatchTrace where
  invoked : List (List String)
  log : List String
  outcome : Except PyError Unit
  deriving Repr

/-- `remove_hun_audio_from_files` (main.py lines 61–76): for each file in
order, build the removal command, log, run it; on a non-zero exit code log
the captured stderr and raise a bare `RuntimeError` (aborting the batch);
on exit code 0 log success and continue. -/
def remove_hun_audio_from_files (run : List String → CmdResult) :
    List PyPath → PyPath → BatchTrace
  | [], _ => BatchTrace.mk [] [] (Except.ok ())
  | video_file :: rest, target_dir =>
    let command := buildRemoveCommand target_dir video_file
    let result := run command
    let header :=
      ["Removing HUN audio from video " ++ pyName video_file,
       "Command arguments: " ++ pyReprList command]
    if result.returncode ≠ 0 then
      BatchTrace.mk [command]
        (header ++ ["Process failed with this error message:\n" ++ result.stderr])
        (Except.error PyError.runtimeError)
    else
      let t := remove_hun_audio_from_files run rest target_dir
      BatchTrace.mk (command :: t.invoked)
        (header ++ ["Removed HUN audio from video " ++ pyName video_file] ++ t.log)
        t.outcome

/-- The ffprobe command built inside `get_file_data` (main.py line 95):
`FFMPEG_INSPECT_COMMAND_HEAD[:] + [str(video_file)]`. -/
def inspectCommand (video_file : PyPath) : List String :=
  FFMPEG_INSPECT_COMMAND_HEAD ++ [pyStr video_file]

/-- `get_file_data` (main.py lines 88–100): run ffprobe on the file; return
its stdout on exit code 0 and the empty string otherwise. -/
def get_file_data (run : List String → CmdResult) (video_file : PyPath) : String :=
  let result := run (inspectCommand video_file)
  if result.returncode = 0 then result.stdout else ""

/-- `get_file_data_list_raw` (main.py lines 79–85). -/
def get_file_data_list_raw (run : List String → CmdResult)
    (video_files : List PyPath) : List String :=
  video_files.map (get_file_data run)

/-- `get_processed_data` (main.py lines 103–109): `json.loads` applied to
each raw string left to right; the first decode failure propagates as the
raised exception, exactly like the Python list comprehension. -/
def get_processed_data {α : Type} (loads : String → Except PyError α) :
    List String → Except PyError (List α)
  | [] => Except.ok []
  | d :: rest =>
    match loads d with
    | Except.error e => Except.error e
    | Except.ok v =>
      match get_processed_data loads rest with
      | Except.error e => Except.error e
      | Except.ok vs => Except.ok (v :: vs)

/-- Observable behaviour of the `__main__` block. -/
structure MainTrace where
  enumerationAttempted : Bool
  spawned : List (List String)
  outcome : Except PyError Unit
  deriving Repr

/-- The `__main__` flow (main.py lines 121–134) together with the
module-level configuration loading that runs first (lines 32–42): load the
configuration, enumerate the source directory, run the removal batch.  The
`PATH` prepend at line 123 only affects how executables are located and the
inspection block at lines 128–130 is commented out, so neither contributes
an observable here. -/
def mainRun (config_path : PyPath) (fileExists : Bool) (parsed : Option JsonObj)
    (fs : PyPath → Option (List String)) (run : List String → CmdResult) :
    MainTrace :=
  match loadConfig config_path fileExists parsed with
  | Except.error e => MainTrace.mk false [] (Except.error e)
  | Except.ok cfg =>
    match get_video_files_from_path fs (pyPathOfString cfg.source_dir)
        cfg.file_extension_filter with
    | Except.error e => MainTrace.mk true [] (Except.error e)
    | Except.ok files =>
      let t := remove_hun_audio_from_files run files (pyPathOfString cfg.target_dir)
      MainTrace.mk true t.invoked t.outcome

/-- Whether an outcome is a configuration-malformedness failure in the
spec's taxonomy: a JSON decode error or a missing-key `KeyError`. -/
def isConfigMalformedErr : Except PyError Unit → Bool
  | Except.error PyError.jsonDecodeError => true
  | Except.error (PyError.keyError _) => true
  | _ => false

/-- The spec's reading of the extension filter: the file-name extension
equals `'.' + E` case-insensitively (both sides lowercased).  Modelled from
the spec for comparison with the source's one-sided lowering. -/
def specCaseInsensitiveMatch (name ext : String) : Bool :=
  pyLowerStr (suffixOfName name) == pyLowerStr ("." ++ ext)

/-! Concrete fixtures used to instantiate the universally quantified
theorems below on closed inputs. -/

/-- A concrete absolute source directory. -/
def wEnumDir : PyPath := PyPath.mk true ["videos"]

/-- A filesystem in which `wEnumDir` holds three entries of mixed case. -/
def wEnumFs : PyPath → Option (List String) :=
  fun p => if p = wEnumDir then some ["a.mkv", "B.MKV", "c.txt"] else none

/-- A concrete relative source directory. -/
def wEnumDirRel : PyPath := PyPath.mk false ["videos"]

/-- A filesystem in which the relative `videos` holds one entry. -/
def wEnumFsRel : PyPath → Option (List String) :=
  fun p => if p = wEnumDirRel then some ["a.mkv"] else none

/-- A filesystem with no directories at all. -/
def wFsNone : PyPath → Option (List String) := fun _ => none

/-- A concrete target directory. -/
def wTarget : PyPath := PyPath.mk true ["target"]

/-- Concrete video files. -/
def wFileA : PyPath := PyPath.mk true ["videos", "a.mkv"]

/-- Second concrete video file. -/
def wFileB : PyPath := PyPath.mk true ["videos", "b.mkv"]

/-- Third concrete video file. -/
def wFileC : PyPath := PyPath.mk true ["videos", "c.mkv"]

/-- A process runner that succeeds on every command. -/
def wRunOk : List String → CmdResult := fun _ => CmdResult.mk 0 "" ""

/-- A process runner that fails on every command with stderr `boom`. -/
def wRunFail : List String → CmdResult := fun _ => CmdResult.mk 1 "" "boom"

/-- A process runner that fails exactly on `wFileB`'s removal command. -/
def wRunFailB : List String → CmdResult :=
  fun c =>
    if c = buildRemoveCommand wTarget wFileB then CmdResult.mk 1 "" "boom"
    else CmdResult.mk 0 "" ""

/-- A concrete configuration file location. -/
def wConfigPath : PyPath := PyPath.mk true ["home", "config.json"]

/-- A parsed configuration document with all four required keys. -/
def wDocFull : JsonObj :=
  [("ffmpeg_dir", "/opt/ffmpeg"), ("source_dir", "/videos"),
   ("target_dir", "/target"), ("file_extension_filter", "mkv")]

/-- A parsed configuration document lacking `source_dir`. -/
def wDocNoSource : JsonObj :=
  [("ffmpeg_dir", "/opt/ffmpeg"), ("target_dir", "/target"),
   ("file_extension_filter", "mkv")]

/-- A `json.loads` stub over `String` values that rejects exactly the empty
string, as Python's parser does (`Expecting value`). -/
def wLoads : String → Except PyError String :=
  fun s => if s == "" then Except.error PyError.jsonDecodeError else Except.ok s

/-! Helper lemmas about the path model. -/

/-- Joining a single relative component onto a path appends it. -/
theorem pyDiv_child_eq (D : PyPath) (n : String) :
    pyDiv D (PyPath.mk false [n]) = PyPath.mk D.absolute (D.parts ++ [n]) := rfl

/-- Joining onto an absolute right operand returns the right operand. -/
theorem pyDiv_absorb (D q : PyPath) (h : q.absolute = true) : pyDiv D q = q := by
  simp [pyDiv, h]

/-- The name of a one-component child of `D` is that component. -/
theorem pyName_child (D : PyPath) (n : String) :
    pyName (pyDiv D (PyPath.mk false [n])) = n := by
  show (List.getLast? (D.parts ++ [n])).getD "" = n
  rw [List.getLast?_append_of_ne_nil D.parts (by simp)]
  rfl

/-- The suffix of a one-component child of `D` is the suffix of that
component. -/
theorem pySuffix_child (D : PyPath) (n : String) :
    pySuffix (pyDiv D (PyPath.mk false [n])) = suffixOfName n := by
  unfold pySuffix
  rw [pyName_child]

/-- For a path with at least one component, `parts[-1]` is `Path.name`. -/
theorem partsLast_eq_pyName (S : PyPath) (h : S.parts ≠ []) :
    partsLast S = pyName S := by
  unfold partsLast pyParts pyName
  rw [List.getLast?_append_of_ne_nil _ h]

/-- Filtering the mapped children and re-joining them onto an absolute `D`
is filtering the entry names and building each child once. -/
theorem enumerate_push (D : PyPath) (E : String) (habs : D.absolute = true)
    (names : List String) :
    ((names.map (fun n => pyDiv D (PyPath.mk false [n]))).filter
        (fun f => pyLowerStr (pySuffix f) == "." ++ E)).map (fun f => pyDiv D f)
      = (names.filter (fun n => pyLowerStr (suffixOfName n) == "." ++ E)).map
          (fun n => pyDiv D (PyPath.mk false [n])) := by
  induction names with
  | nil => rfl
  | cons n names ih =>
    have hchild : pyDiv D (pyDiv D (PyPath.mk false [n]))
        = pyDiv D (PyPath.mk false [n]) := by
      apply pyDiv_absorb
      rw [pyDiv_child_eq]
      exact habs
    by_cases hp : (pyLowerStr (suffixOfName n) == "." ++ E) = true
    · simp [List.filter_cons, pySuffix_child, hp, hchild, ih]
    · simp [List.filter_cons, pySuffix_child, hp, hchild, ih]

/-- C1 (counterexample, two concrete instances refuting the claim's two
universals).  First, case-insensitivity fails: with extension filter `MKV`,
the direct child `a.mkv` of the absolute `/videos` matches `'.MKV'`
case-insensitively, yet enumeration returns the empty list — the source
lowercases only the file's suffix (`file.suffix.lower() == '.' +
extension`, main.py line 58), never the configured extension, so an
uppercase filter matches nothing.  Second, "paths of those direct children
themselves" fails for a relative directory: the relative `videos` holds the
matching entry `a.mkv` whose direct-child path is `videos/a.mkv`, yet
enumeration returns `videos/videos/a.mkv` — `dir_path / file` at line 58
re-joins the already-joined `iterdir` result, which is the identity only
when `dir_path` is absolute. -/
theorem enumerate_misses_uppercase_filter :
    specCaseInsensitiveMatch "a.mkv" "MKV" = true ∧
    wEnumFs wEnumDir = some ["a.mkv", "B.MKV", "c.txt"] ∧
    get_video_files_from_path wEnumFs wEnumDir "MKV" = Except.ok [] ∧
    specCaseInsensitiveMatch "a.mkv" "mkv" = true ∧
    wEnumFsRel wEnumDirRel = some ["a.mkv"] ∧
    pyDiv wEnumDirRel (PyPath.mk false ["a.mkv"])
        = PyPath.mk false ["videos", "a.mkv"] ∧
    get_video_files_from_path wEnumFsRel wEnumDirRel "mkv"
        = Except.ok [PyPath.mk false ["videos", "videos", "a.mkv"]] ∧
    PyPath.mk false ["videos", "videos", "a.mkv"]
        ≠ PyPath.mk false ["videos", "a.mkv"] :=
  ⟨rfl, rfl, rfl, rfl, rfl, rfl, rfl, by decide⟩

/-- C1 (amended): for every absolute directory `D` listed by the filesystem
and every extension string `E`, enumerating `D` with filter `E` returns
exactly those direct children of `D` whose file-name extension, lowercased,
equals `'.' + E` — so the match is case-insensitive in the file name but
exact-case in `E` — and no other entries; the result is the children
themselves, in listing order, with no recursion into subdirectories. -/
theorem enumerate_exactly_lowercase_matches (fs : PyPath → Option (List String))
    (D : PyPath) (E : String) (names : List String)
    (habs : D.absolute = true) (hfs : fs D = some names) :
    get_video_files_from_path fs D E =
      Except.ok ((names.filter
          (fun n => pyLowerStr (suffixOfName n) == "." ++ E)).map
        (fun n => pyDiv D (PyPath.mk false [n]))) := by
  unfold get_video_files_from_path
  rw [hfs]
  exact congrArg Except.ok (enumerate_push D E habs names)

/-- C1 (witness): on the concrete listing `a.mkv`, `B.MKV`, `c.txt` of
`/videos` with filter `mkv`, enumeration keeps exactly `a.mkv` and `B.MKV`
as children of `/videos`. -/
theorem enumerate_exactly_lowercase_matches_witness :
    wEnumDir.absolute = true ∧
    wEnumFs wEnumDir = some ["a.mkv", "B.MKV", "c.txt"] ∧
    get_video_files_from_path wEnumFs wEnumDir "mkv" =
      Except.ok [PyPath.mk true ["videos", "a.mkv"],
                 PyPath.mk true ["videos", "B.MKV"]] :=
  ⟨rfl, rfl,
    (enumerate_exactly_lowercase_matches wEnumFs wEnumDir "mkv"
      ["a.mkv", "B.MKV", "c.txt"] rfl rfl).trans rfl⟩

/-- C2: for every source file path `S` (with at least one component) and
output directory `O`, the removal-command argument vector is, in order: the
tool name, `-i`, `S`, the four fixed `-map` arguments `0:v`, `0:s`,
`-0:a:0`, `0:a:1`, the three codec-copy pairs, and finally `O` joined with
`S`'s base name — same base name, no renaming. -/
theorem remove_command_vector (S O : PyPath) (h : S.parts ≠ []) :
    buildRemoveCommand O S =
      ["ffmpeg", "-i", pyStr S, "-map", "0:v", "-map", "0:s", "-map", "-0:a:0",
       "-map", "0:a:1", "-c:v", "copy", "-c:a", "copy", "-c:s", "copy",
       pyStr (pyDiv O (pyPathOfString (pyName S)))] := by
  unfold buildRemoveCommand FFMPEG_REMOVE_HUN_AUDIO_COMMAND_P1
    FFMPEG_REMOVE_HUN_AUDIO_COMMAND_P2
  rw [partsLast_eq_pyName S h]
  rfl

/-- C2 (witness): for source `/videos/a.mkv` and output directory
`/target`, the built vector ends in `/target/a.mkv`. -/
theorem remove_command_vector_witness :
    wFileA.parts ≠ [] ∧
    buildRemoveCommand wTarget wFileA =
      ["ffmpeg", "-i", "/videos/a.mkv", "-map", "0:v", "-map", "0:s", "-map",
       "-0:a:0", "-map", "0:a:1", "-c:v", "copy", "-c:a", "copy", "-c:s",
       "copy", "/target/a.mkv"] :=
  ⟨by decide, (remove_command_vector wFileA wTarget (by decide)).trans rfl⟩

/-- C8: for every source file path `S`, the inspection-command argument
vector is, in order: `ffprobe`, `-v`, `error`, `-show_entries`,
`stream=index,codec_type:stream_tags=language`, `-of`, `json`, and `S` as
the final argument. -/
theorem inspect_command_vector (S : PyPath) :
    inspectCommand S =
      ["ffprobe", "-v", "error", "-show_entries",
       "stream=index,codec_type:stream_tags=language", "-of", "json",
       pyStr S] := rfl

/-- One-step behaviour of the batch under a failure at position `k`
(zero-based) when all earlier removal commands exit 0: the commands run are
exactly the first `k + 1`, the outcome is the bare `RuntimeError`, and the
log contains the failing file's announcement line and the stderr line. -/
theorem batch_fail_master (run : List String → CmdResult) (target : PyPath) :
    ∀ (files : List PyPath) (k : Nat) (fK : PyPath),
      (∀ c ∈ (files.map (buildRemoveCommand target)).take k,
        (run c).returncode = 0) →
      files.get? k = some fK →
      (run (buildRemoveCommand target fK)).returncode ≠ 0 →
      (remove_hun_audio_from_files run files target).invoked
          = (files.map (buildRemoveCommand target)).take (k + 1) ∧
      (remove_hun_audio_from_files run files target).outcome
          = Except.error PyError.runtimeError ∧
      ("Removing HUN audio from video " ++ pyName fK)
          ∈ (remove_hun_audio_from_files run files target).log ∧
      ("Process failed with this error message:\n"
          ++ (run (buildRemoveCommand target fK)).stderr)
          ∈ (remove_hun_audio_from_files run files target).log := by
  intro files
  induction files with
  | nil =>
    intro k fK h0 hget hbad
    simp at hget
  | cons f rest ih =>
    intro k fK h0 hget hbad
    cases k with
    | zero =>
      have hf : f = fK := by simpa using hget
      subst hf
      simp only [remove_hun_audio_from_files]
      rw [if_pos hbad]
      refine ⟨by simp, rfl, by simp, by simp⟩
    | succ j =>
      have hf0 : (run (buildRemoveCommand target f)).returncode = 0 := by
        apply h0
        simp
      have h0' : ∀ c ∈ (rest.map (buildRemoveCommand target)).take j,
          (run c).returncode = 0 := by
        intro c hc
        apply h0
        simp only [List.map_cons, List.take_succ_cons]
        exact List.mem_cons_of_mem _ hc
      have hget' : rest.get? j = some fK := by simpa using hget
      obtain ⟨h1, h2, h3, h4⟩ := ih j fK h0' hget' hbad
      simp only [remove_hun_audio_from_files]
      rw [if_neg (not_not_intro hf0)]
      refine ⟨by simp [h1], h2, ?_, ?_⟩
      · simp [h3]
      · simp [h4]

/-- C3: for every list of files and a process runner that exits non-zero on
the K-th file (1 ≤ K) after exiting 0 on all earlier files, the batch
invokes the runner exactly K times — on the first K removal commands in
enumeration order — and raises the batch-abort `RuntimeError` after the
K-th invocation; files K+1..N are never attempted. -/
theorem batch_aborts_at_first_failure (run : List String → CmdResult)
    (target : PyPath) (files : List PyPath) (K : Nat) (fK : PyPath)
    (hK : 1 ≤ K)
    (h0 : ∀ c ∈ (files.map (buildRemoveCommand target)).take (K - 1),
      (run c).returncode = 0)
    (hget : files.get? (K - 1) = some fK)
    (hbad : (run (buildRemoveCommand target fK)).returncode ≠ 0) :
    (remove_hun_audio_from_files run files target).invoked
        = (files.map (buildRemoveCommand target)).take K ∧
    (remove_hun_audio_from_files run files target).invoked.length = K ∧
    (remove_hun_audio_from_files run files target).outcome
        = Except.error PyError.runtimeError := by
  obtain ⟨k, rfl⟩ : ∃ k, K = k + 1 := ⟨K - 1, by omega⟩
  have h := batch_fail_master run target files k fK
    (by simpa using h0) (by simpa using hget) hbad
  refine ⟨h.1, ?_, h.2.1⟩
  have hlen : k < files.length := by
    have := List.get?_eq_some.mp (by simpa using hget)
    exact this.1
  rw [h.1]
  simp [List.length_take, List.length_map]
  omega

/-- C3 (witness): three files, with the runner failing on the second file's
command: exactly the first two commands run, in order, and the batch aborts
with the bare `RuntimeError`. -/
theorem batch_aborts_at_first_failure_witness :
    (remove_hun_audio_from_files wRunFailB [wFileA, wFileB, wFileC] wTarget).invoked
        = [buildRemoveCommand wTarget wFileA, buildRemoveCommand wTarget wFileB] ∧
    (remove_hun_audio_from_files wRunFailB [wFileA, wFileB, wFileC] wTarget).invoked.length
        = 2 ∧
    (remove_hun_audio_from_files wRunFailB [wFileA, wFileB, wFileC] wTarget).outcome
        = Except.error PyError.runtimeError := by
  have h := batch_aborts_at_first_failure wRunFailB wTarget [wFileA, wFileB, wFileC]
    2 wFileB (by decide) (by decide) (by decide) (by decide)
  exact ⟨h.1.trans rfl, h.2.1, h.2.2⟩

/-- C4 (counterexample): the batch aborts on `/videos/a.mkv`, whose removal
command produced stderr `boom`, yet the raised error is the bare
`RuntimeError` of main.py line 75, whose `.args` payload is empty — it
carries neither the offending file's name nor the captured stderr. -/
theorem batch_error_carries_nothing :
    (remove_hun_audio_from_files wRunFail [wFileA] wTarget).outcome
        = Except.error PyError.runtimeError ∧
    (wRunFail (buildRemoveCommand wTarget wFileA)).stderr = "boom" ∧
    pyName wFileA = "a.mkv" ∧
    pyErrorArgs PyError.runtimeError = [] :=
  ⟨rfl, rfl, rfl, rfl⟩

/-- C4 (amended): whenever the batch aborts because the K-th removal
command exited non-zero, the error raised to the caller is the bare
`RuntimeError`, which carries no payload at all; the captured stderr of the
failed invocation and the offending file's name appear only in the printed
log — the stderr in the failure line, the file name in its announcement
line. -/
theorem batch_abort_bare_error_stderr_logged (run : List String → CmdResult)
    (target : PyPath) (files : List PyPath) (K : Nat) (fK : PyPath)
    (hK : 1 ≤ K)
    (h0 : ∀ c ∈ (files.map (buildRemoveCommand target)).take (K - 1),
      (run c).returncode = 0)
    (hget : files.get? (K - 1) = some fK)
    (hbad : (run (buildRemoveCommand target fK)).returncode ≠ 0) :
    (remove_hun_audio_from_files run files target).outcome
        = Except.error PyError.runtimeError ∧
    pyErrorArgs PyError.runtimeError = [] ∧
    ("Removing HUN audio from video " ++ pyName fK)
        ∈ (remove_hun_audio_from_files run files target).log ∧
    ("Process failed with this error message:\n"
        ++ (run (buildRemoveCommand target fK)).stderr)
        ∈ (remove_hun_audio_from_files run files target).log := by
  obtain ⟨k, rfl⟩ : ∃ k, K = k + 1 := ⟨K - 1, by omega⟩
  have h := batch_fail_master run target files k fK
    (by simpa using h0) (by simpa using hget) hbad
  exact ⟨h.2.1, rfl, h.2.2.1, h.2.2.2⟩

/-- C4 (amended, witness): one file, failing runner with stderr `boom`: the
outcome is the payload-free `RuntimeError` and the log contains the
announcement and stderr lines. -/
theorem batch_abort_bare_error_stderr_logged_witness :
    (remove_hun_audio_from_files wRunFail [wFileA] wTarget).outcome
        = Except.error PyError.runtimeError ∧
    pyErrorArgs PyError.runtimeError = [] ∧
    ("Removing HUN audio from video " ++ pyName wFileA)
        ∈ (remove_hun_audio_from_files wRunFail [wFileA] wTarget).log ∧
    ("Process failed with this error message:\n"
        ++ (wRunFail (buildRemoveCommand wTarget wFileA)).stderr)
        ∈ (remove_hun_audio_from_files wRunFail [wFileA] wTarget).log :=
  batch_abort_bare_error_stderr_logged wRunFail wTarget [wFileA] 1 wFileA
    (by decide) (by decide) (by decide) (by decide)

/-- C5: for every list of N files and a process runner that exits 0 on
every built removal command, the batch invokes the runner exactly N times,
once per file in enumeration order, and completes without error. -/
theorem batch_all_success (run : List String → CmdResult) (target : PyPath)
    (files : List PyPath)
    (h : ∀ c ∈ files.map (buildRemoveCommand target), (run c).returncode = 0) :
    (remove_hun_audio_from_files run files target).invoked
        = files.map (buildRemoveCommand target) ∧
    (remove_hun_audio_from_files run files target).invoked.length
        = files.length ∧
    (remove_hun_audio_from_files run files target).outcome = Except.ok () := by
  induction files with
  | nil => exact ⟨rfl, rfl, rfl⟩
  | cons f rest ih =>
    have hf : (run (buildRemoveCommand target f)).returncode = 0 := by
      apply h
      simp
    have h' := ih (fun c hc => h c (List.mem_cons_of_mem _ hc))
    simp only [remove_hun_audio_from_files]
    rw [if_neg (not_not_intro hf)]
    refine ⟨by simp [h'.1], by simp [h'.2.1], h'.2.2⟩

/-- C5 (witness): two files and an always-zero runner: both commands run,
in order, and the batch succeeds. -/
theorem batch_all_success_witness :
    (remove_hun_audio_from_files wRunOk [wFileA, wFileB] wTarget).invoked
        = [buildRemoveCommand wTarget wFileA, buildRemoveCommand wTarget wFileB] ∧
    (remove_hun_audio_from_files wRunOk [wFileA, wFileB] wTarget).invoked.length
        = 2 ∧
    (remove_hun_audio_from_files wRunOk [wFileA, wFileB] wTarget).outcome
        = Except.ok () := by
  have h := batch_all_success wRunOk wTarget [wFileA, wFileB] (by decide)
  exact ⟨h.1.trans rfl, h.2.1, h.2.2⟩

/-- Dict subscription either succeeds or raises `KeyError` for that key. -/
theorem dictGet_cases (d : JsonObj) (k : String) :
    (∃ v, dictGet d k = Except.ok v) ∨
    dictGet d k = Except.error (PyError.keyError k) := by
  unfold dictGet
  cases h : List.find? (fun kv => kv.fst == k) d with
  | none => exact Or.inr rfl
  | some kv => exact Or.inl ⟨kv.snd, rfl⟩

/-- A successful dict subscription means the key is present. -/
theorem hasKey_of_dictGet_ok (d : JsonObj) (k v : String)
    (h : dictGet d k = Except.ok v) : hasKey d k = true := by
  unfold dictGet at h
  cases hf : List.find? (fun kv => kv.fst == k) d with
  | none => rw [hf] at h; cases h
  | some kv =>
    have hp := List.find?_some hf
    have hm := List.mem_of_find?_eq_some hf
    unfold hasKey
    exact List.any_eq_true.mpr ⟨kv, hm, hp⟩

/-- Configuration loading from a parsed document either returns the record
or raises `KeyError` on one of the four keys. -/
theorem loadConfig_shape (p : PyPath) (d : JsonObj) :
    (∃ cfg, loadConfig p true (some d) = Except.ok cfg) ∨
    (∃ k, loadConfig p true (some d) = Except.error (PyError.keyError k)) := by
  unfold loadConfig load_json_from_file
  rcases dictGet_cases d "ffmpeg_dir" with ⟨v1, h1⟩ | h1
  · rcases dictGet_cases d "source_dir" with ⟨v2, h2⟩ | h2
    · rcases dictGet_cases d "target_dir" with ⟨v3, h3⟩ | h3
      · rcases dictGet_cases d "file_extension_filter" with ⟨v4, h4⟩ | h4
        · exact Or.inl ⟨Config.mk v1 v2 v3 v4, by simp [h1, h2, h3, h4]⟩
        · exact Or.inr ⟨"file_extension_filter", by simp [h1, h2, h3, h4]⟩
      · exact Or.inr ⟨"target_dir", by simp [h1, h2, h3]⟩
    · exact Or.inr ⟨"source_dir", by simp [h1, h2]⟩
  · exact Or.inr ⟨"ffmpeg_dir", by simp [h1]⟩

/-- When any of the four required keys is absent, configuration loading
from a parsed document cannot succeed. -/
theorem loadConfig_missing_key_not_ok (p : PyPath) (d : JsonObj)
    (h : hasKey d "ffmpeg_dir" = false ∨ hasKey d "source_dir" = false ∨
         hasKey d "target_dir" = false ∨ hasKey d "file_extension_filter" = false) :
    ∀ cfg, loadConfig p true (some d) ≠ Except.ok cfg := by
  intro cfg hok
  unfold loadConfig load_json_from_file at hok
  rcases dictGet_cases d "ffmpeg_dir" with ⟨v1, h1⟩ | h1
  all_goals rcases dictGet_cases d "source_dir" with ⟨v2, h2⟩ | h2
  all_goals rcases dictGet_cases d "target_dir" with ⟨v3, h3⟩ | h3
  all_goals rcases dictGet_cases d "file_extension_filter" with ⟨v4, h4⟩ | h4
  all_goals simp [h1, h2, h3, h4] at hok
  all_goals rcases h with h | h | h | h
  all_goals first
    | (rw [hasKey_of_dictGet_ok d "ffmpeg_dir" v1 h1] at h; cases h)
    | (rw [hasKey_of_dictGet_ok d "source_dir" v2 h2] at h; cases h)
    | (rw [hasKey_of_dictGet_ok d "target_dir" v3 h3] at h; cases h)
    | (rw [hasKey_of_dictGet_ok d "file_extension_filter" v4 h4] at h; cases h)

/-- C6: for every configuration document that parses as structured data but
lacks `source_dir` (or any of the four required keys), the run fails with a
configuration-malformedness error (`KeyError` on the first absent
subscript), directory enumeration is never reached, and no external process
is spawned. -/
theorem config_missing_key_blocks_enumeration (config_path : PyPath)
    (d : JsonObj) (fs : PyPath → Option (List String))
    (run : List String → CmdResult)
    (h : hasKey d "ffmpeg_dir" = false ∨ hasKey d "source_dir" = false ∨
         hasKey d "target_dir" = false ∨ hasKey d "file_extension_filter" = false) :
    (mainRun config_path true (some d) fs run).enumerationAttempted = false ∧
    (mainRun config_path true (some d) fs run).spawned = [] ∧
    isConfigMalformedErr (mainRun config_path true (some d) fs run).outcome
        = true := by
  rcases loadConfig_shape config_path d with ⟨cfg, hcfg⟩ | ⟨k, hcfg⟩
  · exact absurd hcfg (loadConfig_missing_key_not_ok config_path d h cfg)
  · unfold mainRun
    rw [hcfg]
    exact ⟨rfl, rfl, rfl⟩

/-- C6 (witness): on a parsed document lacking `source_dir`, the run stops
before enumeration with a malformed-configuration error. -/
theorem config_missing_key_blocks_enumeration_witness :
    hasKey wDocNoSource "source_dir" = false ∧
    (mainRun wConfigPath true (some wDocNoSource) wFsNone wRunOk).enumerationAttempted
        = false ∧
    (mainRun wConfigPath true (some wDocNoSource) wFsNone wRunOk).spawned = [] ∧
    isConfigMalformedErr
        (mainRun wConfigPath true (some wDocNoSource) wFsNone wRunOk).outcome
        = true := by
  have h := config_missing_key_blocks_enumeration wConfigPath wDocNoSource
    wFsNone wRunOk (Or.inr (Or.inl (by decide)))
  exact ⟨by decide, h.1, h.2.1, h.2.2⟩

/-- C7: for every configuration that loads successfully but whose source
directory does not exist, the run fails with the directory-not-found error
during enumeration, and no external process is ever spawned. -/
theorem missing_source_dir_fails_before_spawn (config_path : PyPath)
    (fileExists : Bool) (parsed : Option JsonObj) (cfg : Config)
    (fs : PyPath → Option (List String)) (run : List String → CmdResult)
    (hload : loadConfig config_path fileExists parsed = Except.ok cfg)
    (hfs : fs (pyPathOfString cfg.source_dir) = none) :
    (mainRun config_path fileExists parsed fs run).enumerationAttempted = true ∧
    (mainRun config_path fileExists parsed fs run).spawned = [] ∧
    (mainRun config_path fileExists parsed fs run).outcome
        = Except.error (PyError.fileNotFound
            (pyStr (pyPathOfString cfg.source_dir))) := by
  simp only [mainRun, hload]
  simp only [get_video_files_from_path, hfs]
  simp

/-- C7 (witness): a complete configuration pointing at `/videos` on a
filesystem with no directories: enumeration fails with the
directory-not-found error and nothing is spawned. -/
theorem missing_source_dir_fails_before_spawn_witness :
    loadConfig wConfigPath true (some wDocFull)
        = Except.ok (Config.mk "/opt/ffmpeg" "/videos" "/target" "mkv") ∧
    (mainRun wConfigPath true (some wDocFull) wFsNone wRunOk).enumerationAttempted
        = true ∧
    (mainRun wConfigPath true (some wDocFull) wFsNone wRunOk).spawned = [] ∧
    (mainRun wConfigPath true (some wDocFull) wFsNone wRunOk).outcome
        = Except.error (PyError.fileNotFound "/videos") := by
  have h := missing_source_dir_fails_before_spawn wConfigPath true (some wDocFull)
    (Config.mk "/opt/ffmpeg" "/videos" "/target" "mkv") wFsNone wRunOk rfl rfl
  exact ⟨rfl, h.1, h.2.1, h.2.2.trans rfl⟩

/-- C9: for every file whose inspection command exits non-zero,
`get_file_data` returns the empty string without raising (the function is
total and its result is independent of the captured stderr), so a caller
cannot distinguish the failed inspection from a runner that exited 0 after
printing nothing. -/
theorem inspect_failure_swallowed (run run2 : List String → CmdResult)
    (S : PyPath)
    (h : (run (inspectCommand S)).returncode ≠ 0)
    (h2 : (run2 (inspectCommand S)).returncode = 0)
    (h2out : (run2 (inspectCommand S)).stdout = "") :
    get_file_data run S = "" ∧ get_file_data run2 S = get_file_data run S := by
  unfold get_file_data
  rw [if_neg h, if_pos h2]
  exact ⟨rfl, h2out⟩

/-- C9 (witness): a runner failing with stderr `boom` yields `""`, equal to
what an empty-output successful runner yields. -/
theorem inspect_failure_swallowed_witness :
    get_file_data wRunFail wFileA = "" ∧
    get_file_data wRunOk wFileA = get_file_data wRunFail wFileA :=
  inspect_failure_swallowed wRunFail wRunOk wFileA (by decide) (by decide)
    (by decide)

/-- If some element of the raw list fails to parse, the processing pass
raises an error (the first decode failure encountered). -/
theorem get_processed_data_error_of_mem {α : Type}
    (loads : String → Except PyError α) (e : PyError) (x : String)
    (hx : loads x = Except.error e) :
    ∀ l : List String, x ∈ l →
      ∃ e2, get_processed_data loads l = Except.error e2 := by
  intro l
  induction l with
  | nil => intro h; cases h
  | cons d rest ih =>
    intro hmem
    cases hld : loads d with
    | error e1 => exact ⟨e1, by simp [get_processed_data, hld]⟩
    | ok v =>
      have hxr : x ∈ rest := by
        rcases List.mem_cons.mp hmem with h1 | h1
        · subst h1
          rw [hld] at hx
          cases hx
        · exact h1
      obtain ⟨e2, h2⟩ := ih hxr
      exact ⟨e2, by simp [get_processed_data, hld, h2]⟩

/-- C10: for every list of files containing at least one file whose
inspection command exits non-zero, composing the raw-inspection pass with
`get_processed_data` raises an error, because the empty string produced for
the failed inspection is not valid JSON (hypothesis `hloads` records
Python's behaviour on `json.loads("")`): the debugging pipeline is partial
over inspection results. -/
theorem processed_pipeline_raises {α : Type}
    (loads : String → Except PyError α) (run : List String → CmdResult)
    (files : List PyPath) (F : PyPath) (eEmpty : PyError)
    (hF : F ∈ files)
    (hfail : (run (inspectCommand F)).returncode ≠ 0)
    (hloads : loads "" = Except.error eEmpty) :
    ∃ e, get_processed_data loads (get_file_data_list_raw run files)
        = Except.error e := by
  have hdata : get_file_data run F = "" := by
    unfold get_file_data
    rw [if_neg hfail]
  have hmem : "" ∈ get_file_data_list_raw run files := by
    rw [← hdata]
    exact List.mem_map_of_mem _ hF
  exact get_processed_data_error_of_mem loads eEmpty "" hloads _ hmem

/-- C10 (witness): one file, failing inspection, and a `json.loads` stub
rejecting the empty string: the composed pipeline raises. -/
theorem processed_pipeline_raises_witness :
    wLoads "" = Except.error PyError.jsonDecodeError ∧
    ∃ e, get_processed_data wLoads (get_file_data_list_raw wRunFail [wFileA])
        = Except.error e :=
  ⟨rfl, processed_pipeline_raises wLoads wRunFail [wFileA] wFileA
    PyError.jsonDecodeError (by simp) (by decide) rfl⟩
